import Mathlib

/-!
Shallow embedding of the snapshot scheduling and retention logic of
src/shutter.py (classes Instance and Shutter), together with theorems
settling the specification claims about it.

Python datetimes are modelled by a calendar record; chronological ordering
and timedelta arithmetic go through an absolute-minute count, which agrees
with Python datetime comparison on valid dates. Stateful methods are
modelled as pure functions over an explicit environment record; code paths
that raise a Python exception return an error value.
-/

set_option maxRecDepth 8192

/-- Python str.lower, modelled on the character list of the string so that
it evaluates inside the kernel (the program only lower-cases ASCII
configuration words). -/
def pyLower (s : String) : String :=
  String.mk (s.data.map Char.toLower)

/-- Python str.startswith, modelled on the character lists. -/
def pyStartsWith (s pre : String) : Bool :=
  pre.data.isPrefixOf s.data

/-- Python s[n:], modelled on the character list. -/
def pyDrop (s : String) (n : Nat) : String :=
  String.mk (s.data.drop n)

/-- The tag namespace constant SETTING_TAG = "Shutter-" of shutter.py line 12. -/
def settingTag : String := "Shutter-"

/-- The bare word "Shutter", i.e. SETTING_TAG without its trailing dash. -/
def settingWord : String := "Shutter"

/-- The provenance/back-reference tag key SETTING_TAG + "InstanceId" that
shutter.py attaches to snapshots it creates (line 327) and filters offsite
snapshots by (line 447). -/
def settingInstanceIdTag : String := "Shutter-InstanceId"

/-- Name of the never-assigned local variable read at shutter.py lines 337
and 490 when both branches above it are skipped. -/
def localLatest : String := "latest"

/-- Attribute looked up on None at shutter.py line 140, where the return
value of log.error is used as if it were a string. -/
def attrFormat : String := "format"

/-- Gregorian leap-year test, as implemented by the Python calendar rules used
by dateutil.relativedelta when clamping a day-of-month. -/
def isLeapYear (y : Nat) : Bool :=
  (y % 4 == 0 && y % 100 != 0) || y % 400 == 0

/-- Number of days in a month of a given year (Gregorian). -/
def daysInMonth (y m : Nat) : Nat :=
  if m == 2 then (if isLeapYear y then 29 else 28)
  else if m == 4 || m == 6 || m == 9 || m == 11 then 30
  else 31

/-- A Python datetime.datetime, reduced to the fields the program compares:
year, month (1-12), day (1-31) and the minute of the day (0-1439).
Seconds and microseconds play no role in any claim and are folded into
the minute. -/
structure DateTime where
  year : Nat
  month : Nat
  day : Nat
  minute : Nat
deriving DecidableEq

/-- Days from the proleptic-Gregorian epoch to January 1 of a year. -/
def daysBeforeYear (y : Nat) : Nat :=
  365 * (y - 1) + (y - 1) / 4 - (y - 1) / 100 + (y - 1) / 400

/-- Days from January 1 to the first day of a month within one year. -/
def daysBeforeMonth (y m : Nat) : Nat :=
  (List.range (m - 1)).foldl (fun acc i => acc + daysInMonth y (i + 1)) 0

/-- Absolute minute count of a datetime. Python compares datetimes
chronologically; on valid dates that order coincides with the order of
this absolute count, and adding a timedelta of d days or m minutes adds
1440 * d + m to it. -/
def absMinutes (d : DateTime) : Nat :=
  1440 * (daysBeforeYear d.year + daysBeforeMonth d.year d.month + (d.day - 1)) + d.minute

/-- dateutil.relativedelta with months n applied to a datetime: advance the
month with carry into the year and clamp the day to the last valid day of
the target month (so Jan 31 plus one month is Feb 28 or Feb 29). -/
def addMonths (d : DateTime) (n : Nat) : DateTime :=
  { year := d.year + (d.month - 1 + n) / 12
    month := (d.month - 1 + n) % 12 + 1
    day := min d.day (daysInMonth (d.year + (d.month - 1 + n) / 12) ((d.month - 1 + n) % 12 + 1))
    minute := d.minute }

/-- The literal frequency name for the daily period. -/
def freqDaily : String := "daily"

/-- The literal frequency name for the weekly period. -/
def freqWeekly : String := "weekly"

/-- The literal frequency name for the monthly period. -/
def freqMonthly : String := "monthly"

/-- An unrecognized frequency word used in concrete inputs. -/
def freqHourly : String := "hourly"

/-- Shutter._timeWithinFrequency (shutter.py lines 281-309): lower-case the
frequency, add the corresponding period to the base time, and report
whether now is at or past that next-due time minus the jitter. An
unrecognized frequency logs an error and yields False. The Python
comparison now >= nextDue + relativedelta with minutes -jitter is rendered
as absMinutes nextDue <= absMinutes now + jitter, which is equivalent over
the integers and avoids truncation at the epoch. -/
def timeWithinFrequency (now : DateTime) (time : DateTime) (frequency : String)
    (jitterMinutes : Nat) : Bool :=
  if pyLower frequency == freqDaily then
    decide (absMinutes time + 1440 ≤ absMinutes now + jitterMinutes)
  else if pyLower frequency == freqWeekly then
    decide (absMinutes time + 7 * 1440 ≤ absMinutes now + jitterMinutes)
  else if pyLower frequency == freqMonthly then
    decide (absMinutes (addMonths time 1) ≤ absMinutes now + jitterMinutes)
  else
    false

/-- The frequency names recognized by the if/elif chain of
Shutter._timeWithinFrequency; anything else falls into the logging else
branch of lines 306-308. -/
def frequencyRecognized (frequency : String) : Bool :=
  pyLower frequency == freqDaily || pyLower frequency == freqWeekly
    || pyLower frequency == freqMonthly

/-- An EC2 snapshot as the program observes it: an identifier, the
StartTime field it sorts and compares by, and its tag map. -/
structure Snapshot where
  id : String
  startTime : DateTime
  tags : List (String × String)
deriving DecidableEq

/-- A snapshot is managed by Shutter when it carries the provenance tag
SETTING_TAG + "InstanceId" that Shutter puts on every snapshot it creates. -/
def isManaged (s : Snapshot) : Bool :=
  s.tags.any (fun kv => kv.1 == settingInstanceIdTag)

/-- Ordering of snapshots by the StartTime sort key used at shutter.py
lines 119 and 451. -/
def startTimeLE (a b : Snapshot) : Prop :=
  absMinutes a.startTime ≤ absMinutes b.startTime

instance : DecidableRel startTimeLE :=
  fun a b => Nat.decLe (absMinutes a.startTime) (absMinutes b.startTime)

/-- Python list.sort with key StartTime: a stable sort by creation time. -/
def sortByStartTime (l : List Snapshot) : List Snapshot :=
  List.insertionSort startTimeLE l

/-- Instance.getRootVolumeSnapshots (shutter.py lines 110-120): fetch every
snapshot of the root volume and sort by StartTime. The code applies no
provenance filter here: unmanaged snapshots of the same volume are
returned too. The volume snapshot list is the environment input. -/
def getRootVolumeSnapshots (volumeSnaps : List Snapshot) : List Snapshot :=
  sortByStartTime volumeSnaps

/-- Shutter.getInstanceOffsiteBackupSnapshots (shutter.py lines 432-452):
filter the offsite region snapshots to those carrying the
SETTING_TAG + "InstanceId" tag holding the id of this instance, then sort by
StartTime. -/
def getInstanceOffsiteBackupSnapshots (regionSnaps : List Snapshot)
    (instanceId : String) : List Snapshot :=
  sortByStartTime (regionSnaps.filter
    (fun s => s.tags.any (fun kv => kv.1 == settingInstanceIdTag && kv.2 == instanceId)))

/-- Python l[:i] for a possibly negative stop index i: a nonnegative stop
takes the first i elements, a negative stop takes all but the last
natAbs i elements (clamped at the ends). -/
def pySliceTo (l : List Snapshot) (i : Int) : List Snapshot :=
  if 0 ≤ i then l.take i.toNat else l.take (l.length - i.natAbs)

/-- Shutter.pruneSnapshots (shutter.py lines 222-242): when the list is
longer than histsize, call snap.delete() on the slice
snapshots[:histsize-1] and count the deletions; otherwise delete nothing.
The first component is the returned deleted counter, which is incremented
once per deleted snapshot and hence equals the slice length; the second is
the list of snapshots deleted, in order. -/
def pruneSnapshots (snapshots : List Snapshot) (histsize : Int) : Nat × List Snapshot :=
  if histsize < (snapshots.length : Int) then
    ((pySliceTo snapshots (histsize - 1)).length, pySliceTo snapshots (histsize - 1))
  else
    (0, [])

/-- A Python exception escaping one of the modelled methods. -/
inductive PyError where
  | unboundLocal (name : String)
  | noneHasNoAttribute (attr : String)
deriving DecidableEq

/-- The environment of one resolved instance: its identity and resolved
configuration together with the cloud state the methods would observe
(volume presence, the snapshots on the root volume, the snapshots in the
offsite region, the current wall clock, and the snapshot objects a create
or copy call would produce). -/
structure InstanceEnv where
  instanceId : String
  frequency : String
  historysize : Int
  deleteoldsnapshots : Bool
  offsitebackup : Bool
  offsitefrequency : String
  offsitehistorysize : Int
  volumeExists : Bool
  volumeSnaps : List Snapshot
  offsiteRegionSnaps : List Snapshot
  now : DateTime
  newSnap : Snapshot
  offsiteNewSnap : Snapshot
deriving DecidableEq

/-- Instance.snapshot (shutter.py lines 122-143): when the root volume is
found, create and return the snapshot; when it is not, line 140 calls
.format on the None returned by log.error, which raises AttributeError
before the method can return None. -/
def instanceSnapshot (env : InstanceEnv) : Except PyError (Option Snapshot) :=
  if env.volumeExists then
    Except.ok (some env.newSnap)
  else
    Except.error (PyError.noneHasNoAttribute attrFormat)

/-- Shutter.snapshotInstanceWithFrequency (shutter.py lines 311-344): fetch
the sorted root-volume snapshots; when nonempty take the last as latest
and snapshot if the frequency gate says it is due; when empty snapshot
immediately if historysize > 0; otherwise fall through to the read of the
never-assigned local latest at line 337, raising UnboundLocalError. -/
def snapshotInstanceWithFrequency (env : InstanceEnv) : Except PyError (Option Snapshot) :=
  match (getRootVolumeSnapshots env.volumeSnaps).getLast? with
  | some latest =>
    if timeWithinFrequency env.now latest.startTime env.frequency 10 then
      instanceSnapshot env
    else
      Except.ok none
  | none =>
    if 0 < env.historysize then
      instanceSnapshot env
    else
      Except.error (PyError.unboundLocal localLatest)

/-- Shutter.makeOffsiteSnapshotWithFrequency (shutter.py lines 469-496):
the same shape over the offsite history: copy offsite if due, copy
immediately on empty offsite history when offsitehistorysize > 0, and
raise UnboundLocalError on the empty-history zero-size fall-through at
line 490. The produced copy is the offsiteNewSnap of the environment. -/
def makeOffsiteSnapshotWithFrequency (env : InstanceEnv) : Except PyError (Option Snapshot) :=
  match (getInstanceOffsiteBackupSnapshots env.offsiteRegionSnaps env.instanceId).getLast? with
  | some latest =>
    if timeWithinFrequency env.now latest.startTime env.offsitefrequency 10 then
      Except.ok (some env.offsiteNewSnap)
    else
      Except.ok none
  | none =>
    if 0 < env.offsitehistorysize then
      Except.ok (some env.offsiteNewSnap)
    else
      Except.error (PyError.unboundLocal localLatest)

/-- What one Shutter.runOne pass did: the primary snapshot created (if
any), whether the offsite replication decision was evaluated, the offsite
copy made (if any), and the two deleted counts from pruning. -/
structure RunOutcome where
  created : Option Snapshot
  offsiteChecked : Bool
  offsiteCopied : Option Snapshot
  prunedMain : Nat
  prunedOffsite : Nat
deriving DecidableEq

/-- Shutter.runOne (shutter.py lines 257-279): take the frequency-gated
snapshot; evaluate offsite replication only when offsitebackup is set and
a snapshot was just created; then, when deleteoldsnapshots is set, re-fetch
the root-volume history (which now contains the new snapshot) and prune
it, and likewise the offsite history when offsitebackup is set. An
exception from any step propagates out of runOne. -/
def runOne (env : InstanceEnv) : Except PyError RunOutcome :=
  match snapshotInstanceWithFrequency env with
  | Except.error e => Except.error e
  | Except.ok snap =>
    match (if env.offsitebackup && snap.isSome
           then makeOffsiteSnapshotWithFrequency env else Except.ok none) with
    | Except.error e => Except.error e
    | Except.ok copied =>
      if env.deleteoldsnapshots then
        if env.offsitebackup then
          Except.ok ⟨snap, env.offsitebackup && snap.isSome, copied,
            (pruneSnapshots (getRootVolumeSnapshots (env.volumeSnaps ++ snap.toList))
              env.historysize).1,
            (pruneSnapshots (getInstanceOffsiteBackupSnapshots
              (env.offsiteRegionSnaps ++ copied.toList) env.instanceId)
              env.offsitehistorysize).1⟩
        else
          Except.ok ⟨snap, env.offsitebackup && snap.isSome, copied,
            (pruneSnapshots (getRootVolumeSnapshots (env.volumeSnaps ++ snap.toList))
              env.historysize).1, 0⟩
      else
        Except.ok ⟨snap, env.offsitebackup && snap.isSome, copied, 0, 0⟩

/-- The sequential branch of Shutter.run (shutter.py lines 253-255): a bare
for-loop over the instances calling runOne with no try/except. The result
collects the outcomes of the instances actually processed and the
exception that escaped the loop, if any; instances after a raising one are
never reached. -/
def runSequentialTrace : List InstanceEnv → List RunOutcome × Option PyError
  | [] => ([], none)
  | env :: rest =>
    match runOne env with
    | Except.error e => ([], some e)
    | Except.ok o =>
      ((o :: (runSequentialTrace rest).1), (runSequentialTrace rest).2)

/-- re.match of SETTING_TAG + "*" against a key at shutter.py line 40: the
regular expression is "Shutter-*", whose trailing dash-star matches zero
or more dashes, so the match succeeds exactly when the key starts with the
bare word "Shutter", dash or not. -/
def matchesSettingRegex (k : String) : Bool :=
  pyStartsWith k settingWord

/-- The key transform of shutter.py line 40, slicing the key from index
(k.startswith(SETTING_TAG) and len(SETTING_TAG)): when k starts with the
full "Shutter-" the slice start is 8 and the prefix is stripped; otherwise
the and-expression is False, which indexes as 0, keeping the whole key. -/
def stripSettingKey (k : String) : String :=
  if pyStartsWith k settingTag then pyDrop k 8 else k

/-- The conf_tags dictionary comprehension of Instance.__init__ (shutter.py
line 40): keep the tags whose key matches the regex, strip the key as
above, and lower-case the value. -/
def confTags (tags : List (String × String)) : List (String × String) :=
  (tags.filter (fun kv => matchesSettingRegex kv.1)).map
    (fun kv => (stripSettingKey kv.1, pyLower kv.2))

/-! Concrete inputs used by the closed theorems and witnesses. -/

/-- Tag map of a snapshot created by Shutter. -/
def managedTags : List (String × String) := [("Shutter-InstanceId", "i-0001")]

/-- Tag map of a snapshot created outside Shutter: no provenance marker. -/
def unmanagedTags : List (String × String) := [("CreatedBy", "operator")]

/-- Managed snapshot taken on Jan 1 2024. -/
def snapM1 : Snapshot := ⟨"snap-m1", ⟨2024, 1, 1, 0⟩, managedTags⟩

/-- Managed snapshot taken on Jan 2 2024. -/
def snapM2 : Snapshot := ⟨"snap-m2", ⟨2024, 1, 2, 0⟩, managedTags⟩

/-- Managed snapshot taken on Jan 3 2024. -/
def snapM3 : Snapshot := ⟨"snap-m3", ⟨2024, 1, 3, 0⟩, managedTags⟩

/-- Managed snapshot taken on Jan 4 2024. -/
def snapM4 : Snapshot := ⟨"snap-m4", ⟨2024, 1, 4, 0⟩, managedTags⟩

/-- Unmanaged snapshot older than every managed one. -/
def snapU0 : Snapshot := ⟨"snap-u0", ⟨2023, 12, 30, 0⟩, unmanagedTags⟩

/-- Unmanaged snapshot newer than every managed one. -/
def snapU5 : Snapshot := ⟨"snap-u5", ⟨2024, 1, 5, 0⟩, unmanagedTags⟩

/-- The snapshot a create call would produce in the concrete environments. -/
def snapNew : Snapshot := ⟨"snap-new", ⟨2024, 6, 1, 0⟩, managedTags⟩

/-- The offsite copy a copy call would produce in the concrete environments. -/
def snapOffNew : Snapshot := ⟨"snap-offnew", ⟨2024, 6, 1, 5⟩, managedTags⟩

/-- A root volume whose newest snapshot is unmanaged. -/
def volWithUnmanagedNewest : List Snapshot := [snapM1, snapM2, snapM3, snapU5]

/-- A root volume whose oldest snapshot is unmanaged. -/
def volWithUnmanagedOldest : List Snapshot := [snapU0, snapM1, snapM2, snapM3]

/-- A baseline resolved-instance environment; concrete theorems override
individual fields of it. -/
def baseEnv : InstanceEnv :=
  { instanceId := "i-0001"
    frequency := "daily"
    historysize := 7
    deleteoldsnapshots := false
    offsitebackup := false
    offsitefrequency := "weekly"
    offsitehistorysize := 7
    volumeExists := true
    volumeSnaps := []
    offsiteRegionSnaps := []
    now := ⟨2024, 6, 1, 0⟩
    newSnap := snapNew
    offsiteNewSnap := snapOffNew }

/-- Environment for the empty-history, zero-retention claim: no snapshots
anywhere and both history sizes zero. -/
def envZeroZero : InstanceEnv :=
  { baseEnv with historysize := 0, offsitehistorysize := 0 }

/-- Environment whose root volume carries an unmanaged newest snapshot and
whose clock makes the decision hinge on which snapshot counts as latest:
relative to the newest managed snapshot (Jan 3) a daily snapshot is long
due, relative to the unmanaged Jan 5 snapshot it is not. -/
def envUnmanagedLatest : InstanceEnv :=
  { baseEnv with volumeSnaps := volWithUnmanagedNewest, now := ⟨2024, 1, 5, 720⟩ }

/-- Environment for the offsite-coupling witness: offsite backup enabled,
but the only snapshot is too recent for a new daily one to be due. -/
def envNotDue : InstanceEnv :=
  { baseEnv with volumeSnaps := [snapM4], offsitebackup := true, now := ⟨2024, 1, 4, 120⟩ }

/-- Environment of an instance whose volume selector resolves to nothing
while a baseline snapshot is called for: the create attempt raises. -/
def envBad : InstanceEnv :=
  { baseEnv with volumeExists := false, historysize := 2 }

/-- Environment of a healthy instance due for a snapshot. -/
def envGood : InstanceEnv :=
  { baseEnv with volumeSnaps := [snapM1] }

/-- The outcome runOne produces on envGood. -/
def outcomeGood : RunOutcome := ⟨some snapNew, false, none, 0, 0⟩

/-- Tag list of an instance carrying a key that begins with "Shutter" but
not with "Shutter-". -/
def tagsShutterFoo : List (String × String) := [("ShutterFoo", "BAR"), ("Name", "web01")]

/-- The key of the first tag of tagsShutterFoo. -/
def keyShutterFoo : String := "ShutterFoo"

/-- The value of the first tag of tagsShutterFoo. -/
def valBar : String := "BAR"

/-! Theorems settling the claims. -/

/-- Claim C1 (code bug evaluation): on the ascending four-snapshot history
with retention count 3, pruneSnapshots deletes the slice
snapshots[:histsize-1], i.e. the first two snapshots, and returns deleted
count 2, where the claim (and the docstring of the function itself, which calls
histsize the number of snapshots that should be kept) requires deleting
exactly min(4 - 3, 4 - 1) = 1 and keeping 3. -/
theorem prune_at_four_with_histsize_three_deletes_two :
    pruneSnapshots [snapM1, snapM2, snapM3, snapM4] 3 = (2, [snapM1, snapM2]) := by
  decide

/-- Claim C2 (code bug evaluation): unmanaged snapshots are not invisible
to the core. getRootVolumeSnapshots applies no provenance filter, so an
unmanaged snapshot that is newest on the volume becomes the latest used
by the frequency gate - concretely, snapshotInstanceWithFrequency skips
(returns none) because the unmanaged Jan 5 snapshot is too recent, even
though the newest managed snapshot (Jan 3) would make a daily snapshot
due - and an unmanaged snapshot that is oldest enters the deletion slice
of pruneSnapshots. -/
theorem unmanaged_snapshots_enter_latest_and_prune :
    ((getRootVolumeSnapshots volWithUnmanagedNewest).getLast? = some snapU5
      ∧ isManaged snapU5 = false
      ∧ snapshotInstanceWithFrequency envUnmanagedLatest = Except.ok none
      ∧ timeWithinFrequency envUnmanagedLatest.now snapM3.startTime envUnmanagedLatest.frequency 10
        = true)
    ∧ (snapU0 ∈ (pruneSnapshots (getRootVolumeSnapshots volWithUnmanagedOldest) 3).2
      ∧ isManaged snapU0 = false) := by
  exact ⟨⟨rfl, rfl, rfl, rfl⟩, by decide, rfl⟩

/-- Claim C3 (code bug evaluation): with an empty snapshot history and a
history size of 0, both snapshotInstanceWithFrequency and the offsite
variant skip both assignment branches and then read the never-assigned
local latest, raising UnboundLocalError instead of returning a no-action
result. -/
theorem empty_history_zero_histsize_raises_unbound_local :
    snapshotInstanceWithFrequency envZeroZero = Except.error (PyError.unboundLocal localLatest)
    ∧ makeOffsiteSnapshotWithFrequency envZeroZero
      = Except.error (PyError.unboundLocal localLatest) := by
  exact ⟨rfl, rfl⟩

/-- Claim C4: prune never deletes the most recent snapshot. For a history
whose last element is strictly newest (the ascending order with the unique
maximal creation time at the end), the maximal snapshot is never among the
deleted ones, for every retention count; and on a single-element history
with retention count 0 nothing is deleted. -/
theorem prune_never_deletes_latest (older : List Snapshot) (latest : Snapshot)
    (histsize : Int)
    (hmax : ∀ x ∈ older, absMinutes x.startTime < absMinutes latest.startTime) :
    latest ∉ (pruneSnapshots (older ++ [latest]) histsize).2
    ∧ pruneSnapshots [latest] 0 = (0, []) := by
  constructor
  · unfold pruneSnapshots
    split
    · next hlt =>
      show latest ∉ pySliceTo (older ++ [latest]) (histsize - 1)
      simp only [List.length_append, List.length_cons, List.length_nil] at hlt
      unfold pySliceTo
      split
      · next hge =>
        have ht : (histsize - 1).toNat ≤ older.length := by omega
        rw [List.take_append_of_le_length ht]
        intro hmem
        exact absurd (hmax latest (List.take_subset _ _ hmem)) (lt_irrefl _)
      · next hneg =>
        have ht : (older ++ [latest]).length - (histsize - 1).natAbs ≤ older.length := by
          simp only [List.length_append, List.length_cons, List.length_nil]
          omega
        rw [List.take_append_of_le_length ht]
        intro hmem
        exact absurd (hmax latest (List.take_subset _ _ hmem)) (lt_irrefl _)
    · simp
  · rfl

/-- Claim C4 witness: the concrete three-snapshot ascending history with
retention count 0 keeps its newest snapshot, and the singleton history
with retention count 0 loses nothing. -/
theorem prune_never_deletes_latest_witness :
    (∀ x ∈ [snapM1, snapM2], absMinutes x.startTime < absMinutes snapM3.startTime)
    ∧ snapM3 ∉ (pruneSnapshots ([snapM1, snapM2] ++ [snapM3]) 0).2
    ∧ pruneSnapshots [snapM3] 0 = (0, []) :=
  ⟨by decide, (prune_never_deletes_latest [snapM1, snapM2] snapM3 0 (by decide)).1,
    (prune_never_deletes_latest [snapM1, snapM2] snapM3 0 (by decide)).2⟩

/-- Claim C5 counterexample: the set of snapshots prune deletes is not
permutation-invariant. On the ascending history it deletes the oldest
snapshot, on the reversed (descending) history it deletes the newest one:
the pruner does not sort the input. -/
theorem prune_deleted_set_depends_on_order :
    List.Perm [snapM1, snapM2, snapM3] [snapM3, snapM2, snapM1]
    ∧ (pruneSnapshots [snapM1, snapM2, snapM3] 2).2 = [snapM1]
    ∧ (pruneSnapshots [snapM3, snapM2, snapM1] 2).2 = [snapM3]
    ∧ snapM1 ≠ snapM3 := by
  decide

/-- Claim C5 amended: only the deleted count is the same for any
permutation of the input sequence, because it depends only on the input
length; the deleted set itself depends on the caller-supplied order, since
pruneSnapshots slices the list as given without sorting. -/
theorem prune_count_perm_invariant (l1 l2 : List Snapshot) (h : l1.Perm l2)
    (histsize : Int) :
    (pruneSnapshots l1 histsize).1 = (pruneSnapshots l2 histsize).1 := by
  have hlen : l1.length = l2.length := h.length_eq
  by_cases hc : histsize < (l2.length : Int)
  · by_cases hg : (0 : Int) ≤ histsize - 1
    · simp [pruneSnapshots, pySliceTo, hc, hg, hlen, List.length_take]
    · simp [pruneSnapshots, pySliceTo, hc, hg, hlen, List.length_take]
  · simp [pruneSnapshots, hc, hlen]

/-- Claim C5 witness: on a concrete permutation pair the deleted counts
agree. -/
theorem prune_count_perm_invariant_witness :
    List.Perm [snapM1, snapM2, snapM3] [snapM3, snapM2, snapM1]
    ∧ (pruneSnapshots [snapM1, snapM2, snapM3] 2).1
      = (pruneSnapshots [snapM3, snapM2, snapM1] 2).1 :=
  ⟨by decide, prune_count_perm_invariant _ _ (by decide) 2⟩

/-- Claim C6 counterexample: an unrecognized frequency does not produce a
ConfigurationError. The gate is a total boolean function; on the
unrecognized word it evaluates to false (not due) at a moment when a
recognized frequency would be long due. -/
theorem unrecognized_frequency_returns_false :
    frequencyRecognized freqHourly = false
    ∧ timeWithinFrequency ⟨2030, 1, 1, 0⟩ ⟨2024, 1, 1, 0⟩ freqHourly 10 = false
    ∧ timeWithinFrequency ⟨2030, 1, 1, 0⟩ ⟨2024, 1, 1, 0⟩ freqDaily 10 = true := by
  decide

/-- Claim C6 amended: for every frequency outside the recognized set
(after lower-casing), _timeWithinFrequency logs an error and returns
False - the silent not-due answer - rather than raising a
ConfigurationError. -/
theorem unrecognized_frequency_not_due (now time : DateTime) (freq : String)
    (jitter : Nat) (h : frequencyRecognized freq = false) :
    timeWithinFrequency now time freq jitter = false := by
  unfold frequencyRecognized at h
  simp only [Bool.or_eq_false_iff] at h
  obtain ⟨⟨h1, h2⟩, h3⟩ := h
  unfold timeWithinFrequency
  simp [h1, h2, h3]

/-- Claim C6 amended witness: the concrete unrecognized frequency makes
the gate return false. -/
theorem unrecognized_frequency_not_due_witness :
    frequencyRecognized freqHourly = false
    ∧ timeWithinFrequency ⟨2031, 1, 1, 0⟩ ⟨2024, 1, 1, 0⟩ freqHourly 10 = false :=
  ⟨by decide, unrecognized_frequency_not_due ⟨2031, 1, 1, 0⟩ ⟨2024, 1, 1, 0⟩ freqHourly 10
    (by decide)⟩

/-- Claim C7: monthly next-due arithmetic clamps. For a last snapshot on
January 31 of any year, the next-due datetime is the last valid day of
February of the same year (Feb 29 in a leap year, Feb 28 otherwise, never
a March date), and the monthly gate reports due exactly when now is at or
past that next-due time minus the jitter. -/
theorem monthly_next_due_clamps_jan31 (y minute : Nat) (now : DateTime) (j : Nat) :
    (addMonths ⟨y, 1, 31, minute⟩ 1).year = y
    ∧ (addMonths ⟨y, 1, 31, minute⟩ 1).month = 2
    ∧ (addMonths ⟨y, 1, 31, minute⟩ 1).day = daysInMonth y 2
    ∧ (addMonths ⟨y, 1, 31, minute⟩ 1).day = (if isLeapYear y then 29 else 28)
    ∧ timeWithinFrequency now ⟨y, 1, 31, minute⟩ freqMonthly j
      = decide (absMinutes (addMonths ⟨y, 1, 31, minute⟩ 1) ≤ absMinutes now + j) := by
  have hday : daysInMonth y 2 = if isLeapYear y then 29 else 28 := by
    unfold daysInMonth
    rfl
  have hadd : addMonths ⟨y, 1, 31, minute⟩ 1
      = ⟨y, 2, if isLeapYear y then 29 else 28, minute⟩ := by
    cases h : isLeapYear y <;> simp [addMonths, daysInMonth, h, Nat.min_def]
  refine ⟨?_, ?_, ?_, ?_, ?_⟩
  · rw [hadd]
  · rw [hadd]
  · rw [hadd, hday]
  · rw [hadd]
  · rfl

/-- Claim C8: the offsite replication decision is evaluated exactly when
offsite backup is enabled and a primary snapshot was created in the same
runOne pass; in particular, when the primary was skipped as not due, no
offsite replication decision is evaluated at all. -/
theorem offsite_checked_iff_primary_created (env : InstanceEnv) (o : RunOutcome)
    (h : runOne env = Except.ok o) :
    o.offsiteChecked = (env.offsitebackup && o.created.isSome) := by
  unfold runOne at h
  split at h
  · exact absurd h (by simp)
  · split at h
    · exact absurd h (by simp)
    · split at h
      · split at h
        · injection h with h; subst h; rfl
        · injection h with h; subst h; rfl
      · injection h with h; subst h; rfl

/-- Claim C8 witness: a concrete offsite-enabled instance whose primary
snapshot is not due gets no offsite check. -/
theorem offsite_checked_iff_primary_created_witness :
    runOne envNotDue = Except.ok ⟨none, false, none, 0, 0⟩
    ∧ (⟨none, false, none, 0, 0⟩ : RunOutcome).offsiteChecked
      = (envNotDue.offsitebackup && (⟨none, false, none, 0, 0⟩ : RunOutcome).created.isSome) :=
  ⟨rfl, offsite_checked_iff_primary_created envNotDue ⟨none, false, none, 0, 0⟩ rfl⟩

/-- Claim C9 counterexample: the run loop does not confine the failure of
one instance. In the sequential branch of Shutter.run, the create attempt of the first instance raises (its volume is missing), the loop aborts with that
exception, and the second instance - which on its own would be processed
successfully - is never processed. -/
theorem sequential_run_aborts_batch :
    runSequentialTrace [envBad, envGood]
      = ([], some (PyError.noneHasNoAttribute attrFormat))
    ∧ runOne envGood = Except.ok outcomeGood := by
  exact ⟨rfl, rfl⟩

/-- Claim C9 amended: the sequential run loop catches nothing: whenever
runOne raises on an instance, the loop ends with that exception and none
of the remaining instances is processed. -/
theorem runOne_error_aborts_sequential (env : InstanceEnv) (rest : List InstanceEnv)
    (e : PyError) (h : runOne env = Except.error e) :
    runSequentialTrace (env :: rest) = ([], some e) := by
  unfold runSequentialTrace
  rw [h]

/-- Claim C9 amended witness: the concrete failing instance aborts the
concrete two-instance batch. -/
theorem runOne_error_aborts_sequential_witness :
    runOne envBad = Except.error (PyError.noneHasNoAttribute attrFormat)
    ∧ runSequentialTrace [envBad, envGood]
      = ([], some (PyError.noneHasNoAttribute attrFormat)) :=
  ⟨rfl, runOne_error_aborts_sequential envBad [envGood]
    (PyError.noneHasNoAttribute attrFormat) rfl⟩

/-- Claim C10: every instance tag whose key merely begins with "Shutter" -
dash or not - is ingested into conf_tags; the "Shutter-" prefix is
stripped exactly when the key starts with the full prefix including the
dash, otherwise the whole key is kept; and the tag value is lower-cased on
ingestion. -/
theorem instance_ingests_shutter_tags (tags : List (String × String)) (k v : String)
    (hmem : (k, v) ∈ tags) (hpre : matchesSettingRegex k = true) :
    (stripSettingKey k, pyLower v) ∈ confTags tags
    ∧ (pyStartsWith k settingTag = true → stripSettingKey k = pyDrop k 8)
    ∧ (pyStartsWith k settingTag = false → stripSettingKey k = k) := by
  refine ⟨?_, ?_, ?_⟩
  · unfold confTags
    exact List.mem_map_of_mem _ (List.mem_filter.mpr ⟨hmem, hpre⟩)
  · intro h
    unfold stripSettingKey
    simp [h]
  · intro h
    unfold stripSettingKey
    simp [h]

/-- Claim C10 witness: the tag key "ShutterFoo", which begins with
"Shutter" but not with "Shutter-", is ingested whole with its value
lower-cased. -/
theorem instance_ingests_shutter_tags_witness :
    ((keyShutterFoo, valBar) ∈ tagsShutterFoo ∧ matchesSettingRegex keyShutterFoo = true)
    ∧ ((stripSettingKey keyShutterFoo, pyLower valBar) ∈ confTags tagsShutterFoo
      ∧ (pyStartsWith keyShutterFoo settingTag = true
          → stripSettingKey keyShutterFoo = pyDrop keyShutterFoo 8)
      ∧ (pyStartsWith keyShutterFoo settingTag = false
          → stripSettingKey keyShutterFoo = keyShutterFoo)) :=
  ⟨⟨by decide, by decide⟩,
    instance_ingests_shutter_tags tagsShutterFoo keyShutterFoo valBar (by decide) (by decide)⟩
